import Mathlib

/-!
Shallow embedding of the Credit Coop SDK `SecuredLine` contract gateway
(src/index.ts) and proofs about its specified behaviour.

External collaborators (the viem transport layer and the remote ledger
service) are modelled as explicit environments: remote reads are fields of a
`RemoteState`, write submission and receipt awaiting are fields of a
`WriteEnv`, and the chain registry plus private-key derivation used by the
constructor are fields of a `ConstructEnv`.  JavaScript `bigint` values are
modelled as `Int`; hex strings (addresses, keys, hashes) as `String`.
-/

namespace CreditCoopSDK

/-- A network profile from the `viem/chains` registry; the gateway
constructor only consumes `chain.rpcUrls.default.http[0]`, retained here as
`defaultRpcUrl`. -/
structure ChainProfile where
  defaultRpcUrl : String
  deriving Repr, DecidableEq

/-- Decoded `ILineOfCredit.Credit` struct returned by the contract's
`getCreditPosition` ABI entry (fields in ABI order). -/
structure Credit where
  deposit : Int
  principal : Int
  interestAccrued : Int
  interestRepaid : Int
  decimals : Int
  token : String
  tokenId : Int
  isOpen : Bool
  isRestricted : Bool
  earlyWithdrawalFee : Int
  deadline : Int
  deriving Repr, DecidableEq

/-- Decoded `ILineOfCredit.Fees` struct returned by the contract's `getFees`
ABI entry. -/
structure Fees where
  originationFee : Int
  swapFee : Int
  servicingFee : Int
  deriving Repr, DecidableEq

/-- Current remote ledger state, as observable through the read-only ABI
entries the SDK wraps.  Each field models the decoded result of the
correspondingly named `view` function of the SecuredLine contract. -/
structure RemoteState where
  admin : String
  available : Int → Int × Int
  borrower : String
  claimableEarlyWithdrawalFees : Int → Int
  counts : Int × Int
  escrow : String
  getCreditPosition : Int → Credit
  getFees : Fees
  getLineFactory : String
  getRates : Int → Int × Int
  ids : Int → Int
  interestAccrued : Int → Int
  isServicer : String → Bool
  mutualConsentProposals : String → String
  nextInQ : Int × Int × String × Int × Int × Int × Int × Int
  nonce : Int
  otcSwapServicer : String
  proposalCount : Int
  protocolTreasury : String
  rates : Int → Int × Int × Int
  recoveryEnabled : Bool
  spigot : String
  status : Int
  swapTarget : String
  tokenContract : String
  tradeable : String → Int
  unused : String → Int

/-- The `SecuredLine` gateway instance: exactly the private fields assigned
in the constructor.  The contract binding is represented by the deployed
address together with the two transport URLs its clients dispatch to:
`walletRpcUrl` is the URL of the wallet client (used for every write call)
and `publicRpcUrl` the URL of the public client (used for every read call
and for `waitForTransactionReceipt`). -/
structure SecuredLine where
  contractAddress : String
  walletAddress : String
  walletRpcUrl : String
  publicRpcUrl : String
  deriving Repr, DecidableEq

/-- Configuration failures raised while constructing the gateway: a
malformed signing key (thrown by `privateKeyToAccount`) or a chain
identifier missing from the `viem/chains` registry (the `undefined` chain is
dereferenced at `chain.rpcUrls.default.http[0]`). -/
inductive ConfigurationError where
  | invalidPrivateKey (msg : String)
  | unknownChain (chainId : String)
  deriving Repr, DecidableEq

/-- Environment consumed by the constructor: the `viem/chains` registry and
the `privateKeyToAccount` derivation, which fails on a malformed key. -/
structure ConstructEnv where
  chains : String → Option ChainProfile
  privateKeyToAccount : String → Except String String

/-- The `SecuredLine` constructor (src/index.ts lines 67-101).  It looks the
chain up in the registry, derives the signer account from the private key
(throwing on a malformed key), binds the wallet client to the chain
profile's default RPC URL, binds the public client to the supplied
`rpcUrl`, and binds the contract to the pair of clients.  An unknown chain
makes the wallet-client construction dereference `undefined` and fail. -/
def SecuredLine.construct (env : ConstructEnv)
    (address privateKey chainId rpcUrl : String) :
    Except ConfigurationError SecuredLine :=
  match env.privateKeyToAccount privateKey with
  | .error m => .error (.invalidPrivateKey m)
  | .ok accountAddress =>
    match env.chains chainId with
    | none => .error (.unknownChain chainId)
    | some chain =>
      .ok { contractAddress := address
            walletAddress := accountAddress
            walletRpcUrl := chain.defaultRpcUrl
            publicRpcUrl := rpcUrl }

/-- URL that state-changing contract calls are dispatched to: `getContract`
routes write methods through the wallet client. -/
def SecuredLine.writeDispatchUrl (g : SecuredLine) : String :=
  g.walletRpcUrl

/-- URL that read-only contract calls are dispatched to: `getContract`
routes read methods through the public client. -/
def SecuredLine.readDispatchUrl (g : SecuredLine) : String :=
  g.publicRpcUrl

/-- Definitive status carried by a mined transaction receipt. -/
inductive TxStatus where
  | success
  | reverted (reason : String)
  deriving Repr, DecidableEq

/-- The transaction receipt resolved by `waitForTransactionReceipt`: the
transaction hash together with the definitive execution status. -/
structure TransactionReceipt where
  transactionHash : String
  status : TxStatus
  deriving Repr, DecidableEq

/-- The argument triple of one `borrow(uint256 id, uint256 amount, address
to)` submission; the source's `to` argument is `toAddress` here because `to`
is reserved in Lean. -/
structure BorrowCall where
  positionId : Int
  amount : Int
  toAddress : String
  deriving Repr, DecidableEq

/-- Write-side environment: submitting a signed `borrow` transaction
(failing when it cannot be dispatched, e.g. a connectivity or estimation
failure) and awaiting the mined receipt of a hash (failing only at the
transport level; a mined-but-reverted transaction resolves to a receipt
whose status is `reverted`). -/
structure WriteEnv where
  submitBorrow : BorrowCall → Except String String
  waitForTransactionReceipt : String → Except String TransactionReceipt

/-- Result of one `borrow` invocation together with the list of
state-changing submissions it dispatched. -/
structure BorrowOutcome where
  result : Except String String
  submissions : List BorrowCall

/-- The `borrow` method (src/index.ts lines 127-148).  It submits exactly
one `borrow` write with the recipient defaulting to the constructor-derived
wallet address, awaits the transaction receipt through the public client,
and returns `result.transactionHash` without inspecting `result.status`.
The second component is the instance after the call: the method assigns no
field. -/
def SecuredLine.borrow (g : SecuredLine) (env : WriteEnv)
    (positionId amount : Int) (to? : Option String) :
    BorrowOutcome × SecuredLine :=
  let call : BorrowCall :=
    { positionId := positionId, amount := amount
      toAddress := to?.getD g.walletAddress }
  let result : Except String String :=
    match env.submitBorrow call with
    | .error e => .error e
    | .ok txnHash =>
      match env.waitForTransactionReceipt txnHash with
      | .error e => .error e
      | .ok receipt => .ok receipt.transactionHash
  ({ result := result, submissions := [call] }, g)

/-- The `getOpenPositionIds` method (src/index.ts lines 159-170): reads the
open-position count as the first component of `counts()`, then reads
`ids(i)` for each index `i` in `[0, count)` and assembles the results in
index order. -/
def SecuredLine.getOpenPositionIds (g : SecuredLine) (s : RemoteState) :
    List Int × SecuredLine :=
  let openPositionCount := s.counts.1
  let openPositionIds :=
    (List.range openPositionCount.toNat).map fun i => s.ids (Int.ofNat i)
  (openPositionIds, g)

/-- The `getPosition` method (src/index.ts lines 190-193): reads
`getCreditPosition(positionId)` and returns the decoded struct. -/
def SecuredLine.getPosition (g : SecuredLine) (s : RemoteState)
    (positionId : Int) : Credit × SecuredLine :=
  (s.getCreditPosition positionId, g)

/-- Shape returned by `getPositionLiquidity`. -/
structure Liquidity where
  availableAssets : Int
  claimableInterest : Int
  deriving Repr, DecidableEq

/-- The `getPositionLiquidity` method (src/index.ts lines 206-212): reads
`available(positionId)` and repackages the pair as
`{ availableAssets, claimableInterest }`. -/
def SecuredLine.getPositionLiquidity (g : SecuredLine) (s : RemoteState)
    (positionId : Int) : Liquidity × SecuredLine :=
  let available := s.available positionId
  ({ availableAssets := available.1, claimableInterest := available.2 }, g)

/-- The raw `available` read method (src/index.ts lines 222-224). -/
def SecuredLine.available (g : SecuredLine) (s : RemoteState)
    (positionId : Int) : (Int × Int) × SecuredLine :=
  (s.available positionId, g)

/-- The raw `getCreditPosition` read method (src/index.ts lines 242-244). -/
def SecuredLine.getCreditPosition (g : SecuredLine) (s : RemoteState)
    (tokenId : Int) : Credit × SecuredLine :=
  (s.getCreditPosition tokenId, g)

/-- The `admin` read method. -/
def SecuredLine.admin (g : SecuredLine) (s : RemoteState) :
    String × SecuredLine :=
  (s.admin, g)

/-- The `borrower` read method. -/
def SecuredLine.borrower (g : SecuredLine) (s : RemoteState) :
    String × SecuredLine :=
  (s.borrower, g)

/-- The `claimableEarlyWithdrawalFees` read method. -/
def SecuredLine.claimableEarlyWithdrawalFees (g : SecuredLine)
    (s : RemoteState) (tokenId : Int) : Int × SecuredLine :=
  (s.claimableEarlyWithdrawalFees tokenId, g)

/-- The `counts` read method. -/
def SecuredLine.counts (g : SecuredLine) (s : RemoteState) :
    (Int × Int) × SecuredLine :=
  (s.counts, g)

/-- The `escrow` read method. -/
def SecuredLine.escrow (g : SecuredLine) (s : RemoteState) :
    String × SecuredLine :=
  (s.escrow, g)

/-- The `getFees` read method. -/
def SecuredLine.getFees (g : SecuredLine) (s : RemoteState) :
    Fees × SecuredLine :=
  (s.getFees, g)

/-- The `getLineFactory` read method. -/
def SecuredLine.getLineFactory (g : SecuredLine) (s : RemoteState) :
    String × SecuredLine :=
  (s.getLineFactory, g)

/-- The `getRates` read method. -/
def SecuredLine.getRates (g : SecuredLine) (s : RemoteState) (id : Int) :
    (Int × Int) × SecuredLine :=
  (s.getRates id, g)

/-- The `ids` read method. -/
def SecuredLine.ids (g : SecuredLine) (s : RemoteState) (index : Int) :
    Int × SecuredLine :=
  (s.ids index, g)

/-- The `interestAccrued` read method. -/
def SecuredLine.interestAccrued (g : SecuredLine) (s : RemoteState)
    (id : Int) : Int × SecuredLine :=
  (s.interestAccrued id, g)

/-- The `isServicer` read method. -/
def SecuredLine.isServicer (g : SecuredLine) (s : RemoteState)
    (addr : String) : Bool × SecuredLine :=
  (s.isServicer addr, g)

/-- The `mutualConsentProposals` read method. -/
def SecuredLine.mutualConsentProposals (g : SecuredLine) (s : RemoteState)
    (id : String) : String × SecuredLine :=
  (s.mutualConsentProposals id, g)

/-- The `nextInQ` read method. -/
def SecuredLine.nextInQ (g : SecuredLine) (s : RemoteState) :
    (Int × Int × String × Int × Int × Int × Int × Int) × SecuredLine :=
  (s.nextInQ, g)

/-- The `nonce` read method. -/
def SecuredLine.nonce (g : SecuredLine) (s : RemoteState) :
    Int × SecuredLine :=
  (s.nonce, g)

/-- The `otcSwapServicer` read method. -/
def SecuredLine.otcSwapServicer (g : SecuredLine) (s : RemoteState) :
    String × SecuredLine :=
  (s.otcSwapServicer, g)

/-- The `proposalCount` read method. -/
def SecuredLine.proposalCount (g : SecuredLine) (s : RemoteState) :
    Int × SecuredLine :=
  (s.proposalCount, g)

/-- The `protocolTreasury` read method. -/
def SecuredLine.protocolTreasury (g : SecuredLine) (s : RemoteState) :
    String × SecuredLine :=
  (s.protocolTreasury, g)

/-- The `rates` read method. -/
def SecuredLine.rates (g : SecuredLine) (s : RemoteState) (index : Int) :
    (Int × Int × Int) × SecuredLine :=
  (s.rates index, g)

/-- The `recoveryEnabled` read method. -/
def SecuredLine.recoveryEnabled (g : SecuredLine) (s : RemoteState) :
    Bool × SecuredLine :=
  (s.recoveryEnabled, g)

/-- The `spigot` read method. -/
def SecuredLine.spigot (g : SecuredLine) (s : RemoteState) :
    String × SecuredLine :=
  (s.spigot, g)

/-- The `status` read method. -/
def SecuredLine.status (g : SecuredLine) (s : RemoteState) :
    Int × SecuredLine :=
  (s.status, g)

/-- The `swapTarget` read method. -/
def SecuredLine.swapTarget (g : SecuredLine) (s : RemoteState) :
    String × SecuredLine :=
  (s.swapTarget, g)

/-- The `tokenContract` read method. -/
def SecuredLine.tokenContract (g : SecuredLine) (s : RemoteState) :
    String × SecuredLine :=
  (s.tokenContract, g)

/-- The `tradeable` read method. -/
def SecuredLine.tradeable (g : SecuredLine) (s : RemoteState)
    (token : String) : Int × SecuredLine :=
  (s.tradeable token, g)

/-- The `unused` read method. -/
def SecuredLine.unused (g : SecuredLine) (s : RemoteState)
    (token : String) : Int × SecuredLine :=
  (s.unused token, g)

/-- Hexadecimal digit test used by the confirmation-reference pattern. -/
def isHexDigitChar (c : Char) : Bool :=
  c.isDigit || (decide (97 ≤ c.toNat) && decide (c.toNat ≤ 102)) ||
    (decide (65 ≤ c.toNat) && decide (c.toNat ≤ 70))

/-- Pattern of a confirmation reference as asserted by the repository's
tests: a 0x-prefixed string of exactly 64 hexadecimal digits. -/
def isTxHash (s : String) : Bool :=
  match s.data with
  | '0' :: 'x' :: rest => rest.length == 64 && rest.all isHexDigitChar
  | _ => false

/-- Modelled from the spec: the remote ledger state relevant to a draw-down,
namely each position's decoded credit struct and its availability pair.  The
Secured Line smart contract holding this state is not part of this
repository; only the SDK wrapper is. -/
structure LedgerState where
  credit : Int → Credit
  avail : Int → Int × Int

/-- Modelled from the spec: "a successful draw-down increases recorded
principal by exactly the requested amount and decreases available liquidity
by exactly the requested amount" (spec section 8); the transition applies to
a draw-down the remote service accepts. -/
def LedgerState.drawDown (L : LedgerState) (id amount : Int) : LedgerState :=
  { credit := fun j =>
      if j = id then
        { L.credit id with principal := (L.credit id).principal + amount }
      else L.credit j
    avail := fun j =>
      if j = id then ((L.avail id).1 - amount, (L.avail id).2)
      else L.avail j }

/-- View of a ledger state through the read ABI: the position reads of
`base` overridden by the ledger's. -/
def LedgerState.remote (L : LedgerState) (base : RemoteState) : RemoteState :=
  { base with getCreditPosition := L.credit, available := L.avail }

/-- Modelled from the spec: a write environment in which the remote service
accepts the submission and mines it successfully, issuing confirmation hash
`h`. -/
def acceptingWriteEnv (h : String) : WriteEnv :=
  { submitBorrow := fun _ => .ok h
    waitForTransactionReceipt := fun hsh =>
      .ok { transactionHash := hsh, status := .success } }

/-- Write environment in which the submission is dispatched (yielding hash
`h`) and the transaction is then mined with definitive status `reverted`
carrying `reason`; awaiting the receipt resolves with that receipt, since
the transport reports a reverted status through the receipt rather than by
throwing. -/
def revertingWriteEnv (h reason : String) : WriteEnv :=
  { submitBorrow := fun _ => .ok h
    waitForTransactionReceipt := fun hsh =>
      .ok { transactionHash := hsh, status := .reverted reason } }

/-- Write environment in which the submission itself cannot be dispatched. -/
def failingWriteEnv (e : String) : WriteEnv :=
  { submitBorrow := fun _ => .error e
    waitForTransactionReceipt := fun _ => .error e }

/-- A well-formed 32-byte transaction hash used in concrete instantiations. -/
def txHash0 : String :=
  "0xa1b2c3d4e5f60718293a4b5c6d7e8f90a1b2c3d4e5f60718293a4b5c6d7e8f90"

/-- A second well-formed 32-byte transaction hash, for instantiations that
must not coincide with those using `txHash0`. -/
def txHash1 : String :=
  "0x0123456789abcdef0123456789abcdef0123456789abcdef0123456789abcdef"

/-- A concrete registry environment: the chains "base" and "hardhat" with
their viem default RPC URLs, and a key derivation accepting exactly
"0xgoodkey". -/
def registryEnv : ConstructEnv :=
  { chains := fun c =>
      if c = "base" then some { defaultRpcUrl := "https://mainnet.base.org" }
      else if c = "hardhat" then
        some { defaultRpcUrl := "http://127.0.0.1:8545" }
      else none
    privateKeyToAccount := fun k =>
      if k = "0xgoodkey" then .ok "0xSIGNER"
      else .error "invalid private key" }

/-- A concrete gateway instance (as produced by constructing against the
"hardhat" profile of `registryEnv`). -/
def hardhatLine : SecuredLine :=
  { contractAddress := "0xLINE", walletAddress := "0xSIGNER"
    walletRpcUrl := "http://127.0.0.1:8545"
    publicRpcUrl := "http://127.0.0.1:8545" }

/-- A concrete credit position mirroring the position-8 values observed in
the repository's fork tests. -/
def sampleCredit : Credit :=
  { deposit := 50000000000, principal := 2008081, interestAccrued := 5000001
    interestRepaid := 285932389, decimals := 6, token := "0xUSDC"
    tokenId := 8, isOpen := true, isRestricted := false
    earlyWithdrawalFee := 0, deadline := 1748494799 }

/-- A concrete remote state used to instantiate the theorems. -/
def sampleRemote : RemoteState :=
  { admin := "0xADMIN", available := fun _ => (49997991919, 285932389)
    borrower := "0xBORROWER", claimableEarlyWithdrawalFees := fun _ => 0
    counts := (3, 9), escrow := "0xESCROW"
    getCreditPosition := fun _ => sampleCredit
    getFees := { originationFee := 0, swapFee := 0, servicingFee := 0 }
    getLineFactory := "0xFACTORY", getRates := fun _ => (0, 0)
    ids := fun i => 8 + i, interestAccrued := fun _ => 0
    isServicer := fun _ => false, mutualConsentProposals := fun _ => "0x0"
    nextInQ := (0, 0, "0x0", 0, 0, 0, 0, 0), nonce := 0
    otcSwapServicer := "0x0", proposalCount := 0, protocolTreasury := "0x0"
    rates := fun _ => (0, 0, 0), recoveryEnabled := false, spigot := "0x0"
    status := 1, swapTarget := "0x0", tokenContract := "0x0"
    tradeable := fun _ => 0, unused := fun _ => 0 }

/-- A concrete ledger state with position 8 as in the fork tests. -/
def sampleLedger : LedgerState :=
  { credit := fun _ => sampleCredit
    avail := fun _ => (49997991919, 285932389) }

/-- C1: evaluating `borrow` in an environment where the submission is
accepted and the mined transaction's definitive status is `reverted` with
reason "NoLiquidity" shows the method returning the transaction hash as a
successful result instead of raising an error carrying the reason: the
receipt's status field is never inspected. -/
theorem borrow_returns_hash_on_reverted_receipt :
    (hardhatLine.borrow (revertingWriteEnv txHash0 "NoLiquidity")
        8 1000000 none).1.result = .ok txHash0 := rfl

/-- C2: constructing against chain "base" with a distinct supplied RPC URL
binds the write dispatch (wallet client) to the chain profile's default URL
rather than the supplied one; only the read dispatch (public client) uses
the supplied URL, so not every remote call targets the constructor-supplied
endpoint. -/
theorem write_dispatch_ignores_supplied_rpc_url :
    (SecuredLine.construct registryEnv "0xLINE" "0xgoodkey" "base"
        "https://base-mainnet.g.alchemy.com/v2/KEY").map
        SecuredLine.writeDispatchUrl = .ok "https://mainnet.base.org" ∧
    (SecuredLine.construct registryEnv "0xLINE" "0xgoodkey" "base"
        "https://base-mainnet.g.alchemy.com/v2/KEY").map
        SecuredLine.readDispatchUrl =
      .ok "https://base-mainnet.g.alchemy.com/v2/KEY" ∧
    ("https://mainnet.base.org" : String) ≠
      "https://base-mainnet.g.alchemy.com/v2/KEY" := by
  refine ⟨rfl, rfl, ?_⟩
  decide

/-- C3: when the remote open-count is `n`, `getOpenPositionIds` returns a
sequence of length exactly `n` whose element at position `i` is the
identifier read for index `i`, and the empty sequence when `n = 0`. -/
theorem getOpenPositionIds_spec (g : SecuredLine) (s : RemoteState) (n : Nat)
    (h : s.counts.1 = Int.ofNat n) :
    (g.getOpenPositionIds s).1.length = n ∧
    (∀ i, i < n →
      ((g.getOpenPositionIds s).1)[i]? = some (s.ids (Int.ofNat i))) ∧
    (n = 0 → (g.getOpenPositionIds s).1 = []) := by
  refine ⟨?_, ?_, ?_⟩
  · simp [SecuredLine.getOpenPositionIds, h]
  · intro i hi
    simp [SecuredLine.getOpenPositionIds, h, List.getElem?_map,
      List.getElem?_range, hi]
  · intro hn
    subst hn
    simp [SecuredLine.getOpenPositionIds, h]

/-- Witness for C3 at the concrete remote state with open-count 3. -/
theorem getOpenPositionIds_spec_witness :
    (hardhatLine.getOpenPositionIds sampleRemote).1.length = 3 ∧
    ((hardhatLine.getOpenPositionIds sampleRemote).1)[1]? = some 9 := by
  have h := getOpenPositionIds_spec hardhatLine sampleRemote 3 rfl
  refine ⟨h.1, ?_⟩
  have h2 := h.2.1 1 (by decide)
  simpa [sampleRemote] using h2

/-- C4: for every position reference, the pair returned by
`getPositionLiquidity` equals, component for component, the pair returned by
the raw `available` read against the same remote state. -/
theorem getPositionLiquidity_matches_available (g : SecuredLine)
    (s : RemoteState) (positionId : Int) :
    (g.getPositionLiquidity s positionId).1.availableAssets =
      ((g.available s positionId).1).1 ∧
    (g.getPositionLiquidity s positionId).1.claimableInterest =
      ((g.available s positionId).1).2 :=
  ⟨rfl, rfl⟩

/-- C5: for a gateway obtained from the constructor, a `borrow` with the
recipient omitted submits the signer address derived from the private key at
construction, a supplied recipient is submitted unchanged, and the amount is
forwarded as given. -/
theorem borrow_recipient_and_amount (env : ConstructEnv) (wenv : WriteEnv)
    (address privateKey chainId rpcUrl addr : String) (g : SecuredLine)
    (hk : env.privateKeyToAccount privateKey = .ok addr)
    (hg : SecuredLine.construct env address privateKey chainId rpcUrl = .ok g)
    (positionId amount : Int) (recipient : String) :
    (g.borrow wenv positionId amount none).1.submissions =
      [{ positionId := positionId, amount := amount, toAddress := addr }] ∧
    (g.borrow wenv positionId amount (some recipient)).1.submissions =
      [{ positionId := positionId, amount := amount,
         toAddress := recipient }] := by
  have hwa : g.walletAddress = addr := by
    unfold SecuredLine.construct at hg
    rw [hk] at hg
    cases hchain : env.chains chainId with
    | none => rw [hchain] at hg; cases hg
    | some chain =>
      rw [hchain] at hg
      cases hg
      rfl
  constructor
  · simp [SecuredLine.borrow, hwa]
  · simp [SecuredLine.borrow]

/-- Witness for C5 at a concrete construction over `registryEnv`. -/
theorem borrow_recipient_and_amount_witness :
    (hardhatLine.borrow (acceptingWriteEnv txHash0) 8 1000000
        none).1.submissions =
      [{ positionId := 8, amount := 1000000, toAddress := "0xSIGNER" }] ∧
    (hardhatLine.borrow (acceptingWriteEnv txHash0) 8 1000000
        (some "0xDEAD")).1.submissions =
      [{ positionId := 8, amount := 1000000, toAddress := "0xDEAD" }] :=
  borrow_recipient_and_amount registryEnv (acceptingWriteEnv txHash0)
    "0xLINE" "0xgoodkey" "hardhat" "http://127.0.0.1:8545" "0xSIGNER"
    hardhatLine rfl rfl 8 1000000 "0xDEAD"

/-- C6: a malformed signing key makes construction fail with the
invalid-private-key configuration error; a valid key with an unresolved
network identifier makes it fail with the unknown-chain configuration
error; and construction succeeds only when the network resolves. -/
theorem construct_config_errors (env : ConstructEnv)
    (address privateKey chainId rpcUrl : String) :
    (∀ m, env.privateKeyToAccount privateKey = .error m →
      SecuredLine.construct env address privateKey chainId rpcUrl =
        .error (.invalidPrivateKey m)) ∧
    (∀ addr, env.privateKeyToAccount privateKey = .ok addr →
      env.chains chainId = none →
      SecuredLine.construct env address privateKey chainId rpcUrl =
        .error (.unknownChain chainId)) ∧
    (∀ g, SecuredLine.construct env address privateKey chainId rpcUrl =
        .ok g → (env.chains chainId).isSome = true) := by
  refine ⟨?_, ?_, ?_⟩
  · intro m hm
    simp [SecuredLine.construct, hm]
  · intro addr ha hc
    simp [SecuredLine.construct, ha, hc]
  · intro g hg
    unfold SecuredLine.construct at hg
    cases hk : env.privateKeyToAccount privateKey with
    | error m => rw [hk] at hg; cases hg
    | ok addr =>
      rw [hk] at hg
      cases hc : env.chains chainId with
      | none => rw [hc] at hg; cases hg
      | some chain => simp [hc]

/-- Witness for C6: both configuration failures realized over the concrete
registry. -/
theorem construct_config_errors_witness :
    SecuredLine.construct registryEnv "0xLINE" "badkey" "base" "u" =
      .error (.invalidPrivateKey "invalid private key") ∧
    SecuredLine.construct registryEnv "0xLINE" "0xgoodkey" "nowhere" "u" =
      .error (.unknownChain "nowhere") :=
  ⟨(construct_config_errors registryEnv "0xLINE" "badkey" "base" "u").1
      "invalid private key" rfl,
   (construct_config_errors registryEnv "0xLINE" "0xgoodkey" "nowhere"
      "u").2.1 "0xSIGNER" rfl rfl⟩

/-- C7: every method of the gateway — the write, the composite reads and
every raw read — leaves the instance exactly as constructed: the second
component of each call is the unchanged instance. -/
theorem gateway_state_immutable (g : SecuredLine) (s : RemoteState)
    (wenv : WriteEnv) (positionId amount index tokenId id : Int)
    (to? : Option String) (addr token pid : String) :
    (g.borrow wenv positionId amount to?).2 = g ∧
    (g.getOpenPositionIds s).2 = g ∧
    (g.getPosition s positionId).2 = g ∧
    (g.getPositionLiquidity s positionId).2 = g ∧
    (g.admin s).2 = g ∧
    (g.available s positionId).2 = g ∧
    (g.borrower s).2 = g ∧
    (g.claimableEarlyWithdrawalFees s tokenId).2 = g ∧
    (g.counts s).2 = g ∧
    (g.escrow s).2 = g ∧
    (g.getCreditPosition s tokenId).2 = g ∧
    (g.getFees s).2 = g ∧
    (g.getLineFactory s).2 = g ∧
    (g.getRates s id).2 = g ∧
    (g.ids s index).2 = g ∧
    (g.interestAccrued s id).2 = g ∧
    (g.isServicer s addr).2 = g ∧
    (g.mutualConsentProposals s pid).2 = g ∧
    (g.nextInQ s).2 = g ∧
    (g.nonce s).2 = g ∧
    (g.otcSwapServicer s).2 = g ∧
    (g.proposalCount s).2 = g ∧
    (g.protocolTreasury s).2 = g ∧
    (g.rates s index).2 = g ∧
    (g.recoveryEnabled s).2 = g ∧
    (g.spigot s).2 = g ∧
    (g.status s).2 = g ∧
    (g.swapTarget s).2 = g ∧
    (g.tokenContract s).2 = g ∧
    (g.tradeable s token).2 = g ∧
    (g.unused s token).2 = g :=
  ⟨rfl, rfl, rfl, rfl, rfl, rfl, rfl, rfl, rfl, rfl, rfl, rfl, rfl, rfl,
   rfl, rfl, rfl, rfl, rfl, rfl, rfl, rfl, rfl, rfl, rfl, rfl, rfl, rfl,
   rfl, rfl, rfl⟩

/-- C8 counterexample: a remote execution failure is not surfaced to the
caller.  In an environment whose submission is dispatched and whose mined
receipt carries definitive status `reverted` with reason "NoLiquidity" —
i.e. the remote execution failed — `borrow` resolves with the transaction
hash instead of surfacing the failure, refuting the claim that a failed
remote execution is surfaced once to the caller. -/
theorem borrow_reverted_execution_not_surfaced :
    (revertingWriteEnv txHash1 "NoLiquidity").waitForTransactionReceipt
        txHash1 =
      .ok { transactionHash := txHash1, status := .reverted "NoLiquidity" } ∧
    (hardhatLine.borrow (revertingWriteEnv txHash1 "NoLiquidity")
        8 1000000 none).1.result = .ok txHash1 :=
  ⟨rfl, rfl⟩

/-- C8 amended: every `borrow` invocation dispatches exactly one
state-changing submission and never resubmits it — the call list always has
length one; when the submission itself fails, that failure is surfaced once
as the result; but when the submission is dispatched and a receipt is
obtained, the receipt's transaction hash is returned whatever its execution
status, so a remote execution failure (a mined receipt with `reverted`
status) is not surfaced. -/
theorem borrow_single_submission (g : SecuredLine) (env : WriteEnv)
    (positionId amount : Int) (to? : Option String) :
    (g.borrow env positionId amount to?).1.submissions.length = 1 ∧
    (∀ e, env.submitBorrow
        (BorrowCall.mk positionId amount (to?.getD g.walletAddress)) =
          .error e →
      (g.borrow env positionId amount to?).1.result = .error e) ∧
    (∀ h rcpt, env.submitBorrow
        (BorrowCall.mk positionId amount (to?.getD g.walletAddress)) =
          .ok h →
      env.waitForTransactionReceipt h = .ok rcpt →
      (g.borrow env positionId amount to?).1.result =
        .ok rcpt.transactionHash) := by
  refine ⟨rfl, ?_, ?_⟩
  · intro e he
    simp [SecuredLine.borrow, he]
  · intro h rcpt hs hw
    simp [SecuredLine.borrow, hs, hw]

/-- Witness for C8: a failing dispatch is surfaced once, and a dispatched
submission whose receipt is reverted resolves with the hash regardless. -/
theorem borrow_single_submission_witness :
    (hardhatLine.borrow (failingWriteEnv "connection refused")
        8 1000000 none).1.submissions.length = 1 ∧
    (hardhatLine.borrow (failingWriteEnv "connection refused")
        8 1000000 none).1.result = .error "connection refused" ∧
    (hardhatLine.borrow (revertingWriteEnv txHash1 "PositionIsClosed")
        8 2000000 none).1.result = .ok txHash1 :=
  ⟨(borrow_single_submission hardhatLine (failingWriteEnv "connection refused")
      8 1000000 none).1,
   (borrow_single_submission hardhatLine (failingWriteEnv "connection refused")
      8 1000000 none).2.1 "connection refused" rfl,
   (borrow_single_submission hardhatLine
      (revertingWriteEnv txHash1 "PositionIsClosed") 8 2000000 none).2.2
      txHash1
      { transactionHash := txHash1, status := .reverted "PositionIsClosed" }
      rfl rfl⟩

/-- C9: against the spec-modelled remote ledger, a successful draw-down of
`amount ≤ available` returns the well-formed confirmation hash, and reading
back afterwards shows principal increased by exactly `amount` and available
liquidity decreased by exactly `amount`. -/
theorem borrow_conservation_spec_model (g : SecuredLine) (base : RemoteState)
    (L : LedgerState) (id amount : Int) (h : String)
    (_hpos : 0 ≤ amount) (_hle : amount ≤ (L.avail id).1)
    (hhash : isTxHash h = true) :
    (g.borrow (acceptingWriteEnv h) id amount none).1.result = .ok h ∧
    isTxHash h = true ∧
    (g.getPosition ((L.drawDown id amount).remote base) id).1.principal =
      (L.credit id).principal + amount ∧
    (g.getPositionLiquidity
        ((L.drawDown id amount).remote base) id).1.availableAssets =
      (L.avail id).1 - amount := by
  refine ⟨rfl, hhash, ?_, ?_⟩
  · simp [SecuredLine.getPosition, LedgerState.remote, LedgerState.drawDown]
  · simp [SecuredLine.getPositionLiquidity, LedgerState.remote,
      LedgerState.drawDown]

/-- Witness for C9 at the concrete ledger (position 8, draw-down of
1000000 against availability 49997991919). -/
theorem borrow_conservation_spec_model_witness :
    (hardhatLine.borrow (acceptingWriteEnv txHash0) 8 1000000 none).1.result =
      .ok txHash0 ∧
    isTxHash txHash0 = true ∧
    (hardhatLine.getPosition
        ((sampleLedger.drawDown 8 1000000).remote sampleRemote)
        8).1.principal = (sampleLedger.credit 8).principal + 1000000 ∧
    (hardhatLine.getPositionLiquidity
        ((sampleLedger.drawDown 8 1000000).remote sampleRemote)
        8).1.availableAssets = (sampleLedger.avail 8).1 - 1000000 :=
  borrow_conservation_spec_model hardhatLine sampleRemote sampleLedger
    8 1000000 txHash0 (by decide) (by decide) (by decide)

/-- C10: for every position reference, `getPosition` returns exactly the
decoded result of the raw `getCreditPosition` read against the same remote
state. -/
theorem getPosition_eq_getCreditPosition (g : SecuredLine) (s : RemoteState)
    (id : Int) :
    (g.getPosition s id).1 = (g.getCreditPosition s id).1 :=
  rfl

end CreditCoopSDK
